import Mathlib

/-!
Verification development for the LazAI assistant editor extension.
The definitions below are a shallow embedding of the request-orchestration
and session-management core: the dual-backend service (lazaiService),
the session store and chat orchestrator (chatProvider), the chat trigger
detector (chatDetector), and the inline completion gatekeeper
(inlineCompletionProvider).  Network calls and the host editor API are
abstracted as explicit parameters (outcome oracles and boolean flags);
everything else is translated operation by operation from the source.
-/

namespace LazAI

/-! ## JavaScript-flavoured helpers -/

/-- JS truthiness of an optional string: undefined and the empty string are
falsy, any other string is truthy. -/
def jsTruthy : Option String → Bool
  | none => false
  | some s => s ≠ ""

/-- Substring test, modelling the JS String.includes check.  For a nonempty
pattern, splitOn returns more than one piece exactly when the pattern
occurs in the string. -/
def strContains (s pat : String) : Bool :=
  (s.splitOn pat).length > 1

/-- JS arr.slice(-n): the last n elements (the whole list when it is
shorter than n). -/
def jsSliceLast (n : Nat) (l : List α) : List α :=
  l.drop (l.length - n)

/-- Keep only the latest cap elements when the list has grown beyond cap,
exactly like the source pattern: if (xs.length > cap) xs = xs.slice(-cap). -/
def trimToLast (cap : Nat) (l : List α) : List α :=
  if l.length > cap then jsSliceLast cap l else l

/-- The whitespace class matched by the JS regex escapes and by the JS
trim method (ASCII part). -/
def isJsSpace (c : Char) : Bool :=
  c = ' ' || c = '\t' || c = '\n' || c = '\x0d' || c = '\x0b' || c = '\x0c'

/-- JS String.trim: remove leading and trailing whitespace. -/
def jsTrim (s : String) : String :=
  String.mk (((s.data.dropWhile isJsSpace).reverse.dropWhile isJsSpace).reverse)

/-- Apply f to the first element satisfying p, leaving the rest unchanged.
This models the JS idiom of find followed by in-place mutation of the
found object inside the array. -/
def updateFirst (p : α → Bool) (f : α → α) : List α → List α
  | [] => []
  | x :: xs => if p x then f x :: xs else x :: updateFirst p f xs

/-! ## lazaiService: data model -/

/-- Message role, from the ChatMessage interface of lazaiService. -/
inductive Role where
  | system
  | user
  | assistant
deriving DecidableEq, Repr

/-- ChatMessage from lazaiService. -/
structure ChatMessage where
  role : Role
  content : String
deriving DecidableEq, Repr

/-- CompletionResponse from lazaiService: text plus an optional error. -/
structure CompletionResponse where
  text : String
  error : Option String
deriving DecidableEq, Repr

/-- CompletionRequest from lazaiService.  The temperature field is a
floating point pass-through that no modelled behaviour inspects, so it is
omitted. -/
structure CompletionRequest where
  prompt : String
  maxTokens : Option Nat
deriving DecidableEq, Repr

/-- ChatRequest from lazaiService (temperature omitted as above). -/
structure ChatRequest where
  messages : List ChatMessage
  maxTokens : Option Nat
deriving DecidableEq, Repr

/-- The environment a LazAIService call runs in: the lazai configuration
values, whether the Alith agent handle is non-null, and oracles giving the
outcome of the two network backends.  The agent oracle maps the prompt
string passed to alithAgent.prompt to either a response or a thrown error;
the cloud oracle maps the messages array of the request body to either the
choices contents of a 2xx response or a thrown error message. -/
structure ServiceEnv where
  useAlith : Bool
  apiKey : Option String
  alithAgent : Bool
  agent : String → Except String String
  cloud : List ChatMessage → Except String (List String)

/-! ## lazaiService: private key validation and initialization -/

/-- Character class [0-9a-fA-F]. -/
def isHexChar (c : Char) : Bool :=
  c.isDigit || ('a' ≤ c && c ≤ 'f') || ('A' ≤ c && c ≤ 'F')

/-- The regex test from initializeAlith: 64 hex characters and nothing
else. -/
def isHex64 (s : String) : Bool :=
  s.length = 64 && s.data.all isHexChar

/-- Strip an optional 0x in front, as initializeAlith does after trimming
(expressed on the character list so that it evaluates by reduction). -/
def strip0x (s : String) : String :=
  if s.data.take 2 = ['0', 'x'] then String.mk (s.data.drop 2) else s

/-- The key cleaning and validation steps of initializeAlith: trim, strip
an optional 0x, require 64 hex characters, and re-add the 0x. -/
def validateAndNormalizeKey (raw : String) : Except String String :=
  let k := strip0x (jsTrim raw)
  if isHex64 k then
    Except.ok ("0x" ++ k)
  else
    Except.error ("Invalid private key format. Expected 64 hex characters, got: "
      ++ toString k.length ++ " characters")

/-- initAlith models initializeAlith from lazaiService: it returns whether
the Alith agent handle (alithAgent) ends up non-null.  The inputs are the
useAlith flag, the configured private key, availability of the three Alith
library bindings (ChainConfig, Client, Agent), and an oracle for the
blockchain establishment steps (client construction, user lookup, node
lookup, header fetch), any of whose failures is caught and leaves the
agent null. -/
def initAlith (useAlith : Bool) (privateKey : Option String)
    (chainConfigAvail clientAvail agentClassAvail : Bool)
    (establish : Except String Unit) : Bool :=
  if useAlith && jsTruthy privateKey && chainConfigAvail && clientAvail
      && agentClassAvail then
    match validateAndNormalizeKey (privateKey.getD "") with
    | Except.error _ => false
    | Except.ok _ =>
      match establish with
      | Except.error _ => false
      | Except.ok _ => true
  else
    false

/-- isConfigured from lazaiService: under useAlith it checks only that a
private key is set and the ChainConfig binding loaded; otherwise it checks
the cloud API key. -/
def isConfigured (useAlith : Bool) (privateKey : Option String)
    (chainConfigAvail : Bool) (apiKey : Option String) : Bool :=
  if useAlith then
    jsTruthy privateKey && chainConfigAvail
  else
    jsTruthy apiKey

/-! ## lazaiService: completion and chat calls -/

def notInitializedMsg : String :=
  "Alith Agent not initialized. Please configure your private key in settings."

def noApiKeyMsg : String :=
  "LazAI API key not configured. Please set it in settings."

def rateLimitCompletionMsg : String :=
  "Rate limit reached. Please use Alith Agent by configuring your private key, or wait before trying again."

def rateLimitChatMsg : String :=
  "Rate limit reached on Groq API. Please configure your private key to use Alith Agent for unlimited access, or wait before trying again."

def completionSystemPrompt : String :=
  "You are a helpful coding assistant. Provide only the code completion without explanations. Complete the code based on the context provided."

/-- The prompt getCompletion sends to alithAgent.prompt. -/
def completionAgentPrompt (req : CompletionRequest) : String :=
  "Complete this code based on context: " ++ req.prompt

/-- The prompt chat sends to alithAgent.prompt: only the user-role message
contents, joined with newlines. -/
def agentChatPrompt (messages : List ChatMessage) : String :=
  String.intercalate "\n"
    ((messages.filter (fun m => m.role == Role.user)).map (fun m => m.content))

/-- The catch clause shared by getCompletion and chat: a thrown error
whose message mentions a rate limit is replaced by a dedicated advisory,
anything else is passed through as the error field. -/
def catchToResponse (rateMsg err : String) : CompletionResponse :=
  if strContains err "Rate limit" then
    { text := "", error := some rateMsg }
  else
    { text := "", error := some err }

/-- The direct-API branch shared by getCompletion and chat: makeRequest
throws when no API key is configured, otherwise the cloud oracle either
throws or yields the choices; an empty choices array yields the emptyMsg
error, a non-empty one yields the trimmed first content. -/
def directApiCall (env : ServiceEnv) (messages : List ChatMessage)
    (emptyMsg rateMsg : String) : CompletionResponse :=
  if jsTruthy env.apiKey then
    match env.cloud messages with
    | Except.error e => catchToResponse rateMsg e
    | Except.ok choices =>
      match choices with
      | [] => { text := "", error := some emptyMsg }
      | c :: _ => { text := jsTrim c, error := none }
  else
    catchToResponse rateMsg noApiKeyMsg

/-- getCompletion from lazaiService.  The second component records whether
the direct cloud API path was taken.  When the agent handle is present, a
failed agent call is returned as an error result with no cloud fallback;
when it is absent and useAlith is set, a not-initialized error is
returned; only with useAlith disabled does the call reach the cloud. -/
def getCompletion (env : ServiceEnv) (req : CompletionRequest) :
    CompletionResponse × Bool :=
  if env.alithAgent then
    match env.agent (completionAgentPrompt req) with
    | Except.ok r => ({ text := r, error := none }, false)
    | Except.error e =>
      ({ text := ""
         error := some ("Alith Agent failed: " ++ e
           ++ ". Please check your private key and node connection.") }, false)
  else if env.useAlith then
    ({ text := "", error := some notInitializedMsg }, false)
  else
    (directApiCall env
      [ { role := Role.system, content := completionSystemPrompt }
      , { role := Role.user, content := req.prompt } ]
      "No completion generated" rateLimitCompletionMsg, true)

/-- The code chat runs after the agent attempt (or when no agent handle
exists): a not-initialized error when useAlith is set without an agent,
otherwise the direct API with the full messages array. -/
def chatFallback (env : ServiceEnv) (req : ChatRequest) :
    CompletionResponse × Bool :=
  if env.useAlith && !env.alithAgent then
    ({ text := "", error := some notInitializedMsg }, false)
  else
    (directApiCall env req.messages "No response generated" rateLimitChatMsg,
      true)

/-- chat from lazaiService.  With an agent handle present the user-role
contents are joined into a single prompt for the agent; an agent failure
falls through (no early return in the catch) to the fallback, which
reaches the direct cloud API because the agent handle is still non-null. -/
def chat (env : ServiceEnv) (req : ChatRequest) : CompletionResponse × Bool :=
  if env.alithAgent then
    match env.agent (agentChatPrompt req.messages) with
    | Except.ok r => ({ text := r, error := none }, false)
    | Except.error _ => chatFallback env req
  else
    chatFallback env req

/-! ## chatProvider: session store -/

/-- The role restriction of session entries in chatProvider: user or
assistant. -/
inductive PanelRole where
  | user
  | assistant
deriving DecidableEq, Repr

/-- A stored session message, the entries of ChatSession.messages. -/
structure PanelMessage where
  role : PanelRole
  content : String
deriving DecidableEq, Repr

/-- ChatSession from chatProvider. -/
structure ChatSession where
  id : String
  name : String
  messages : List PanelMessage
  createdAt : Nat
deriving DecidableEq, Repr

/-- The session-related fields of LazAIChatProvider. -/
structure ProviderState where
  chatSessions : List ChatSession
  currentSessionId : Option String
deriving DecidableEq, Repr

/-- The provider state right after construction: loadSessions resets to an
empty list and no current session. -/
def initProviderState : ProviderState :=
  { chatSessions := [], currentSessionId := none }

/-- The session name derivation inside createNewSession.  The JS
conditional tests truthiness of firstMessage, so an absent or empty first
message both yield the sequential default name; a truthy one is truncated
to its first 30 characters with a three-dot ellipsis appended exactly when
it is longer than 30 characters. -/
def deriveSessionName (firstMessage : Option String) (count : Nat) : String :=
  if jsTruthy firstMessage then
    (firstMessage.getD "").take 30
      ++ (if (firstMessage.getD "").length > 30 then "..." else "")
  else
    "Chat " ++ toString (count + 1)

/-- createNewSession from chatProvider.  The now argument stands for
Date.now(), used both for the id and the createdAt stamp.  The new session
is pushed at the end, becomes current, and the list is trimmed to its
latest 10 entries. -/
def createNewSession (st : ProviderState) (firstMessage : Option String)
    (now : Nat) : ProviderState × String :=
  let sessionId := "session_" ++ toString now
  let sessionName := deriveSessionName firstMessage st.chatSessions.length
  let newSession : ChatSession :=
    { id := sessionId, name := sessionName, messages := [], createdAt := now }
  let sessions := trimToLast 10 (st.chatSessions ++ [newSession])
  ({ chatSessions := sessions, currentSessionId := some sessionId }, sessionId)

/-- addMessageToSession from chatProvider: create a session implicitly if
none is current (named from the content when the role is user), then push
the message onto the found current session and trim its messages to the
latest 50. -/
def addMessageToSession (st : ProviderState) (role : PanelRole)
    (content : String) (now : Nat) : ProviderState :=
  let st :=
    if st.currentSessionId.isNone then
      (createNewSession st
        (if role = PanelRole.user then some content else none) now).1
    else
      st
  match st.currentSessionId with
  | none => st
  | some sid =>
    { st with
      chatSessions :=
        updateFirst (fun s => s.id == sid)
          (fun s =>
            { s with
              messages := trimToLast 50 (s.messages ++ [⟨role, content⟩]) })
          st.chatSessions }

/-- switchToSession from chatProvider: a failed lookup is a no-op,
otherwise the session becomes current. -/
def switchToSession (st : ProviderState) (sessionId : String) : ProviderState :=
  match st.chatSessions.find? (fun s => s.id == sessionId) with
  | none => st
  | some _ => { st with currentSessionId := some sessionId }

/-- The session-store operations, for stating invariants over arbitrary
operation sequences. -/
inductive ChatOp where
  | create (firstMessage : Option String) (now : Nat)
  | add (role : PanelRole) (content : String) (now : Nat)
  | switch (sessionId : String)

def applyChatOp (st : ProviderState) : ChatOp → ProviderState
  | ChatOp.create fm now => (createNewSession st fm now).1
  | ChatOp.add role content now => addMessageToSession st role content now
  | ChatOp.switch sid => switchToSession st sid

def runChatOps (st : ProviderState) (ops : List ChatOp) : ProviderState :=
  ops.foldl applyChatOp st

/-! ## chatProvider: chat orchestration -/

/-- The system prompt of handleChatMessage. -/
def panelSystemPrompt : String :=
  "You are LazAI, a helpful programming assistant. Provide clear, concise, and helpful responses to programming questions. Format code blocks properly with syntax highlighting. You have access to conversation history to provide contextual responses."

/-- Widening of a stored session message to the service message type. -/
def toChatMessage (m : PanelMessage) : ChatMessage :=
  { role := match m.role with
      | PanelRole.user => Role.user
      | PanelRole.assistant => Role.assistant
    content := m.content }

/-- The conversation history computed by handleChatMessage: the last six
messages of the current session (or nothing when the lookup fails), mapped
to service messages. -/
def conversationHistoryOf (st : ProviderState) : List ChatMessage :=
  match st.chatSessions.find? (fun s => some s.id == st.currentSessionId) with
  | some s => (jsSliceLast 6 s.messages).map toChatMessage
  | none => []

/-- The messages array handleChatMessage sends to the backend, computed on
the state after the user message has been appended: the system prompt, the
history window minus its final entry (the user message just appended), and
the new user turn. -/
def assembleChatMessages (st : ProviderState) (userMessage : String)
    (now : Nat) : List ChatMessage :=
  let st1 := addMessageToSession st PanelRole.user userMessage now
  [ { role := Role.system, content := panelSystemPrompt } ]
    ++ (conversationHistoryOf st1).dropLast
    ++ [ { role := Role.user, content := userMessage } ]

/-! ## chatProvider: inline query path -/

/-- The provider state together with the text of the focused document,
line by line.  handleInlineChatQuery reads the document for context and
inserts a comment block into it, but never touches the provider session
fields. -/
structure EditorState where
  provider : ProviderState
  document : List String
deriving Repr

/-- The outcome of handleInlineChatQuery visible to the user. -/
inductive InlineOutcome where
  | notConfigured
  | backendError (e : String)
  | inserted (block : String)
deriving DecidableEq, Repr

/-- The system prompt of handleInlineChatQuery. -/
def inlineSystemPrompt : String :=
  "You are a helpful programming assistant. Answer the user\x27s question based on the provided code context. Be concise and relevant. Provide code examples when helpful."

/-- getCommentPrefix from chatProvider (renamed: the language to comment
token lookup with default //). -/
def getCommentToken (languageId : String) : String :=
  if languageId = "python" || languageId = "ruby" || languageId = "shell"
      || languageId = "powershell" || languageId = "yaml"
      || languageId = "dockerfile" then
    "#"
  else
    "//"

/-- The context gathering of handleInlineChatQuery: the lines from
max(0, line-5) to min(lineCount-1, line+5), each with a trailing
newline. -/
def inlineContextText (document : List String) (posLine : Nat) : String :=
  let startLine := posLine - 5
  let endLine := min (document.length - 1) (posLine + 5)
  String.join
    (((List.range (endLine + 1 - startLine)).map (fun i =>
      (document.getD (startLine + i) "") ++ "\n")))

/-- The comment block handleInlineChatQuery inserts on success. -/
def inlineCommentBlock (languageId query responseText : String) : String :=
  let tok := getCommentToken languageId
  let questionText := tok ++ " Question: " ++ query
  let formattedResponse :=
    String.intercalate "\n"
      ((responseText.splitOn "\n").map (fun line => tok ++ " " ++ line))
  let separator := tok ++ " " ++ String.mk (List.replicate 50 '-')
  "\n" ++ questionText ++ "\n" ++ separator ++ "\n" ++ formattedResponse
    ++ "\n" ++ separator ++ "\n"

/-- handleInlineChatQuery from chatProvider, parameterized by the service
configuration check and a backend oracle for the chat call.  It reads the
document, builds a one-shot system/user prompt, and on success inserts the
comment block at the trigger position; session state is never read or
written. -/
def handleInlineChatQuery (es : EditorState) (configured : Bool)
    (languageId query : String) (posLine : Nat)
    (backend : List ChatMessage → CompletionResponse) :
    EditorState × InlineOutcome :=
  if !configured then
    (es, InlineOutcome.notConfigured)
  else
    let contextText := inlineContextText es.document posLine
    let messages : List ChatMessage :=
      [ { role := Role.system, content := inlineSystemPrompt }
      , { role := Role.user
          content := "Context:\n```\n" ++ contextText ++ "\n```\n\nQuestion: "
            ++ query } ]
    let response := backend messages
    match response.error with
    | some e => (es, InlineOutcome.backendError e)
    | none =>
      let block := inlineCommentBlock languageId query response.text
      ({ es with
         document :=
           es.document.set posLine (block ++ es.document.getD posLine "") },
        InlineOutcome.inserted block)

/-! ## chatDetector: trigger extraction -/

/-- Match the literal word chat case-insensitively at the head of the
character list, returning the remainder. -/
def stripChatKeyword : List Char → Option (List Char)
  | c :: h :: a :: t :: rest =>
    if c.toLower = 'c' && h.toLower = 'h' && a.toLower = 'a'
        && t.toLower = 't' then
      some rest
    else
      none
  | _ => none

/-- The line test of onDocumentChange: trim the completed line and match
the anchored pattern of optional whitespace, an optional // or # comment
opener with trailing whitespace, more optional whitespace, the word chat
case-insensitively, then at least one whitespace character and a non-empty
remainder; the extracted question is the trimmed remainder and must be
non-empty.  The regex requires the remainder group to be non-empty after
the whitespace run; because the line was trimmed first, a remainder that
trims to nothing can only arise from the non-greedy redistribution of that
whitespace, which the source then rejects with its question.length check,
so both failure modes collapse to the same absent result here. -/
def extractChatQuestion (lineText : String) : Option String :=
  let t0 := (jsTrim lineText).data.dropWhile isJsSpace
  let t1 :=
    if t0.take 2 = ['/', '/'] then (t0.drop 2).dropWhile isJsSpace
    else if t0.take 1 = ['#'] then (t0.drop 1).dropWhile isJsSpace
    else t0
  let t2 := t1.dropWhile isJsSpace
  match stripChatKeyword t2 with
  | none => none
  | some rest =>
    match rest with
    | [] => none
    | c :: _ =>
      if isJsSpace c then
        let question := jsTrim (String.mk rest)
        if question.length > 0 then some question else none
      else
        none

/-- The per-change test of onDocumentChange: the detector is inert unless
the chat feature is enabled and the changed document is the focused one,
and it only reacts to an inserted bare newline, in which case the
completed line is inspected. -/
def onDocumentChangeTrigger (chatEnabled docFocused : Bool)
    (insertedText lineText : String) : Option String :=
  if chatEnabled && docFocused
      && (insertedText = "\n" || insertedText = "\x0d\n") then
    extractChatQuestion lineText
  else
    none

/-! ## inlineCompletionProvider: gatekeeper -/

/-- The mutable request-spacing fields of LazAIInlineCompletionProvider. -/
structure CompletionGateState where
  lastRequestTime : Nat
  pending : Bool
deriving DecidableEq, Repr

/-- The provider starts with lastRequestTime 0 and no pending request. -/
def initCompletionGateState : CompletionGateState :=
  { lastRequestTime := 0, pending := false }

/-- minRequestInterval from inlineCompletionProvider: 2000 milliseconds. -/
def minRequestInterval : Nat := 2000

/-- Whether a provideInlineCompletionItems invocation got as far as
submitting a backend request. -/
inductive GateResult where
  | noSuggestion
  | issued
deriving DecidableEq, Repr

/-- The gate sequence of provideInlineCompletionItems, up to the point
where the backend request is submitted: feature flag, configuration,
cancellation, minimum spacing since the last submission, single-flight,
non-empty trimmed pre-cursor text, and the trigger-pattern heuristic
(abstracted as a predicate on the pre-cursor text, standing for
shouldTriggerCompletion, whose pattern details no gating claim depends
on).  On issuance the submission time is recorded and the pending flag
set, exactly as the source does before awaiting the request. -/
def provideStep (st : CompletionGateState)
    (enabled configured cancelled : Bool) (now : Nat)
    (textBeforeCursor : String) (trigger : String → Bool) :
    GateResult × CompletionGateState :=
  if !enabled then (GateResult.noSuggestion, st)
  else if !configured then (GateResult.noSuggestion, st)
  else if cancelled then (GateResult.noSuggestion, st)
  else if now - st.lastRequestTime < minRequestInterval then
    (GateResult.noSuggestion, st)
  else if st.pending then (GateResult.noSuggestion, st)
  else if (jsTrim textBeforeCursor).length = 0 then (GateResult.noSuggestion, st)
  else if !trigger textBeforeCursor then (GateResult.noSuggestion, st)
  else (GateResult.issued, { lastRequestTime := now, pending := true })

/-- Resolution of the pending request (both the success and the error
path null out pendingRequest). -/
def resolveStep (st : CompletionGateState) : CompletionGateState :=
  { st with pending := false }

/-- The events a completion-provider trace is made of: an invocation
attempt with its gate inputs, or the resolution of the in-flight
request. -/
inductive CompletionEvent where
  | attempt (enabled configured cancelled : Bool) (now : Nat)
      (textBeforeCursor : String)
  | resolve

/-- Run a trace of events, collecting the submission times of the
requests that were actually issued, in order. -/
def runCompletion (trigger : String → Bool) (st : CompletionGateState) :
    List CompletionEvent → CompletionGateState × List Nat
  | [] => (st, [])
  | CompletionEvent.attempt e c cl now txt :: rest =>
    let step := provideStep st e c cl now txt trigger
    let tail := runCompletion trigger step.2 rest
    (tail.1, (if step.1 = GateResult.issued then [now] else []) ++ tail.2)
  | CompletionEvent.resolve :: rest =>
    runCompletion trigger (resolveStep st) rest

/-- The issued submission times of a trace started from the initial
provider state. -/
def issuedTimes (trigger : String → Bool) (events : List CompletionEvent) :
    List Nat :=
  (runCompletion trigger initCompletionGateState events).2

/-! ## Claim theorems -/

/-- Claim C7: a completed line of // chat followed by a question yields
the extracted question, while a line starting with the word chatbot yields
no trigger, because chat must be followed by at least one whitespace
character before a non-empty question. -/
theorem C7_chat_trigger_extraction :
    onDocumentChangeTrigger true true "\n" "// chat how do I sort an array"
        = some "how do I sort an array"
    ∧ onDocumentChangeTrigger true true "\n" "chatbot is cool" = none := by
  exact ⟨rfl, rfl⟩

/-- Counterexample to claim C8 as stated: the empty string is a first
message of at most 30 characters, yet the derived session name is the
sequential default Chat 1, not the message verbatim, because the source
tests JS truthiness of the first message and the empty string is falsy. -/
theorem C8_counterexample :
    ¬ ∀ (m : String) (count : Nat),
        m.length ≤ 30 → deriveSessionName (some m) count = m := by
  intro h
  have h0 := h "" 0 (by decide)
  exact absurd h0 (by decide)

/-- Claim C8 (amended to non-empty first messages): a first message longer
than 30 characters names the session with exactly its first 30 characters
followed by the three-character ellipsis marker, and a non-empty first
message of at most 30 characters is used verbatim with no ellipsis. -/
theorem C8_session_name_derivation (m : String) (count : Nat) :
    (m ≠ "" → m.length ≤ 30 → deriveSessionName (some m) count = m)
    ∧ (30 < m.length → deriveSessionName (some m) count = m.take 30 ++ "...") := by
  constructor
  · intro hne hle
    have hd : m.data.length ≤ 30 := hle
    rw [deriveSessionName, if_pos (by simp [jsTruthy, hne]), Option.getD_some,
      if_neg (Nat.not_lt.mpr hle), String.take_eq, List.take_of_length_le hd]
    exact String.append_empty m
  · intro hlt
    have hne : m ≠ "" := by
      intro h
      rw [h] at hlt
      exact absurd hlt (by decide)
    rw [deriveSessionName, if_pos (by simp [jsTruthy, hne]), Option.getD_some,
      if_pos hlt]

/-- Witness for C8: a concrete 5-character message is kept verbatim and a
concrete 40-character message is truncated to 30 characters plus the
ellipsis. -/
theorem C8_session_name_witness :
    deriveSessionName (some "hello") 0 = "hello"
    ∧ deriveSessionName (some (String.mk (List.replicate 40 'a'))) 3
        = (String.mk (List.replicate 40 'a')).take 30 ++ "..." :=
  ⟨(C8_session_name_derivation "hello" 0).1 (by decide) (by decide),
   (C8_session_name_derivation (String.mk (List.replicate 40 'a')) 3).2
     (by decide)⟩

/-- Claim C2: a 64-hex-character private key, with or without a leading
0x, is accepted and normalized to a 0x-prefixed form; any other configured
key string is rejected with a format error, the agent handle stays null
whatever the establishment oracle would have done, and isConfigured (in
the rejection scenario, where useAlith is set, the key is present and the
libraries loaded) still reports true whenever the cloud backend is
configured. -/
theorem C2_private_key_validation (raw : String) :
    (isHex64 (strip0x (jsTrim raw)) = true →
      validateAndNormalizeKey raw = Except.ok ("0x" ++ strip0x (jsTrim raw)))
    ∧ (isHex64 (strip0x (jsTrim raw)) = false →
      validateAndNormalizeKey raw
        = Except.error ("Invalid private key format. Expected 64 hex characters, got: "
            ++ toString (strip0x (jsTrim raw)).length ++ " characters")
      ∧ (∀ (cc cl ag : Bool) (establish : Except String Unit),
          initAlith true (some raw) cc cl ag establish = false)
      ∧ (∀ apiKey : Option String, jsTruthy apiKey = true → raw ≠ "" →
          isConfigured true (some raw) true apiKey = true)) := by
  constructor
  · intro hok
    rw [validateAndNormalizeKey]
    simp only [hok, if_true]
  · intro hbad
    refine ⟨?_, ?_, ?_⟩
    · rw [validateAndNormalizeKey]
      simp only [hbad, Bool.false_eq_true, if_false]
    · intro cc cl ag establish
      by_cases htr : jsTruthy (some raw) = true
      · have hval : validateAndNormalizeKey raw
            = Except.error ("Invalid private key format. Expected 64 hex characters, got: "
                ++ toString (strip0x (jsTrim raw)).length ++ " characters") := by
          rw [validateAndNormalizeKey]
          simp only [hbad, Bool.false_eq_true, if_false]
        simp only [initAlith, htr, Option.getD_some, hval]
        split <;> rfl
      · simp only [Bool.not_eq_true] at htr
        simp [initAlith, htr]
    · intro apiKey _ hne
      have htr : jsTruthy (some raw) = true := by
        simp [jsTruthy, hne]
      rw [isConfigured]
      simp [htr]

/-- Witness for C2: the all-a 64-character key is accepted and normalized,
and the three-character key xyz is rejected, leaves the agent null even
with a successful establishment oracle, and leaves isConfigured true with
a cloud key present. -/
theorem C2_private_key_validation_witness :
    validateAndNormalizeKey (String.mk (List.replicate 64 'a'))
        = Except.ok ("0x" ++ strip0x (jsTrim (String.mk (List.replicate 64 'a'))))
    ∧ validateAndNormalizeKey "xyz"
        = Except.error ("Invalid private key format. Expected 64 hex characters, got: "
            ++ toString (strip0x (jsTrim "xyz")).length ++ " characters")
    ∧ initAlith true (some "xyz") true true true (Except.ok ()) = false
    ∧ isConfigured true (some "xyz") true (some "gsk_key") = true :=
  ⟨(C2_private_key_validation (String.mk (List.replicate 64 'a'))).1 (by decide),
   ((C2_private_key_validation "xyz").2 (by decide)).1,
   ((C2_private_key_validation "xyz").2 (by decide)).2.1 true true true (Except.ok ()),
   ((C2_private_key_validation "xyz").2 (by decide)).2.2 (some "gsk_key")
     (by decide) (by decide)⟩

/-- Claim C1: with the agent connection established, a failed agent
completion call is returned to the caller as an error result and the
direct cloud API path is never taken, while a failed agent chat call does
reach the direct cloud API path. -/
theorem C1_asymmetric_failover (env : ServiceEnv) (reqC : CompletionRequest)
    (reqK : ChatRequest) (eC eK : String)
    (hagent : env.alithAgent = true)
    (hfc : env.agent (completionAgentPrompt reqC) = Except.error eC)
    (hfk : env.agent (agentChatPrompt reqK.messages) = Except.error eK) :
    getCompletion env reqC
      = ({ text := ""
           error := some ("Alith Agent failed: " ++ eC
             ++ ". Please check your private key and node connection.") }, false)
    ∧ (chat env reqK).2 = true := by
  constructor
  · rw [getCompletion]
    simp only [hagent, if_true, hfc]
  · rw [chat]
    simp only [hagent, if_true, hfk, chatFallback, Bool.not_true,
      Bool.and_false, Bool.false_eq_true, if_false]

/-- A concrete environment with an established agent whose calls all
fail, used to witness claim C1. -/
def envAgentFails : ServiceEnv :=
  { useAlith := true
    apiKey := some "gsk_key"
    alithAgent := true
    agent := fun _ => Except.error "boom"
    cloud := fun _ => Except.ok ["cloud answer"] }

/-- Witness for C1 at a concrete environment, completion request and chat
request. -/
theorem C1_asymmetric_failover_witness :
    getCompletion envAgentFails { prompt := "p", maxTokens := none }
      = ({ text := ""
           error := some ("Alith Agent failed: boom"
             ++ ". Please check your private key and node connection.") }, false)
    ∧ (chat envAgentFails
        { messages := [{ role := Role.user, content := "hi" }]
          maxTokens := none }).2 = true :=
  C1_asymmetric_failover envAgentFails { prompt := "p", maxTokens := none }
    { messages := [{ role := Role.user, content := "hi" }], maxTokens := none }
    "boom" "boom" rfl rfl rfl

/-- Claim C10: when the agent backend serves a chat call, the prompt it
receives is built from the user-role message contents only, so the system
prompt and assistant-role history are discarded: the prompt is invariant
under removing the non-user messages, and two chat requests agreeing on
their user messages produce the same served result. -/
theorem C10_agent_chat_user_only (env : ServiceEnv)
    (m1 m2 : List ChatMessage) (mt : Option Nat) (r : String)
    (hagent : env.alithAgent = true)
    (husers : m1.filter (fun m => m.role == Role.user)
        = m2.filter (fun m => m.role == Role.user))
    (hok : env.agent (agentChatPrompt m1) = Except.ok r) :
    agentChatPrompt m1 = agentChatPrompt (m1.filter (fun m => m.role == Role.user))
    ∧ chat env { messages := m1, maxTokens := mt }
        = ({ text := r, error := none }, false)
    ∧ chat env { messages := m1, maxTokens := mt }
        = chat env { messages := m2, maxTokens := mt } := by
  have hprompt : agentChatPrompt m1 = agentChatPrompt m2 := by
    rw [agentChatPrompt, agentChatPrompt, husers]
  refine ⟨?_, ?_, ?_⟩
  · rw [agentChatPrompt, agentChatPrompt, List.filter_filter]
    simp
  · rw [chat]
    simp only [hagent, if_true, hok]
  · rw [chat, chat]
    simp only [hagent, if_true, hok, ← hprompt, hok]

/-- A concrete environment with an established, succeeding agent, used to
witness claim C10. -/
def envAgentOk : ServiceEnv :=
  { useAlith := true
    apiKey := none
    alithAgent := true
    agent := fun _ => Except.ok "agent answer"
    cloud := fun _ => Except.error "unreachable" }

/-- Witness for C10: a request carrying a system prompt and an assistant
turn is served identically to one carrying only its user turns. -/
theorem C10_agent_chat_user_only_witness :
    chat envAgentOk
      { messages :=
          [ { role := Role.system, content := "sys" }
          , { role := Role.user, content := "a" }
          , { role := Role.assistant, content := "b" }
          , { role := Role.user, content := "c" } ]
        maxTokens := none }
      = chat envAgentOk
        { messages :=
            [ { role := Role.user, content := "a" }
            , { role := Role.user, content := "c" } ]
          maxTokens := none } :=
  (C10_agent_chat_user_only envAgentOk
    [ { role := Role.system, content := "sys" }
    , { role := Role.user, content := "a" }
    , { role := Role.assistant, content := "b" }
    , { role := Role.user, content := "c" } ]
    [ { role := Role.user, content := "a" }
    , { role := Role.user, content := "c" } ]
    none "agent answer" rfl (by decide) rfl).2.2

/-- Claim C9: handleInlineChatQuery leaves the session store untouched:
whatever the configuration check, backend outcome or success path, the
provider component of the editor state is unchanged. -/
theorem C9_inline_query_frame (es : EditorState) (configured : Bool)
    (languageId query : String) (posLine : Nat)
    (backend : List ChatMessage → CompletionResponse) :
    ((handleInlineChatQuery es configured languageId query posLine backend).1).provider
      = es.provider := by
  rw [handleInlineChatQuery]
  split
  · rfl
  · dsimp only
    split
    · rfl
    · rfl

/-! ## Session-store invariants -/

theorem length_updateFirst (p : α → Bool) (f : α → α) (l : List α) :
    (updateFirst p f l).length = l.length := by
  induction l with
  | nil => rfl
  | cons x xs ih =>
    rw [updateFirst]
    split <;> simp [ih]

theorem mem_updateFirst {p : α → Bool} {f : α → α} {l : List α} {a : α}
    (h : a ∈ updateFirst p f l) : a ∈ l ∨ ∃ b ∈ l, a = f b := by
  induction l with
  | nil => exact absurd h (by simp [updateFirst])
  | cons x xs ih =>
    rw [updateFirst] at h
    split at h
    · rcases List.mem_cons.mp h with h1 | h1
      · exact Or.inr ⟨x, List.mem_cons_self x xs, h1⟩
      · exact Or.inl (List.mem_cons_of_mem x h1)
    · rcases List.mem_cons.mp h with h1 | h1
      · exact Or.inl (h1 ▸ List.mem_cons_self x xs)
      · rcases ih h1 with h2 | ⟨b, hb, he⟩
        · exact Or.inl (List.mem_cons_of_mem x h2)
        · exact Or.inr ⟨b, List.mem_cons_of_mem x hb, he⟩

theorem length_trimToLast_le (cap : Nat) (l : List α) (h : l.length ≤ cap + 1) :
    (trimToLast cap l).length ≤ cap := by
  rw [trimToLast, jsSliceLast]
  split
  · simp only [List.length_drop]
    omega
  · omega

theorem mem_trimToLast {cap : Nat} {l : List α} {a : α}
    (h : a ∈ trimToLast cap l) : a ∈ l := by
  rw [trimToLast, jsSliceLast] at h
  split at h
  · exact List.mem_of_mem_drop h
  · exact h

/-- The bound invariant of the session store: at most 10 sessions, each
with at most 50 messages. -/
def storeInv (st : ProviderState) : Prop :=
  st.chatSessions.length ≤ 10 ∧ ∀ s ∈ st.chatSessions, s.messages.length ≤ 50

theorem storeInv_init : storeInv initProviderState := by
  constructor
  · simp [initProviderState]
  · intro s hs
    exact absurd hs (by simp [initProviderState])

theorem storeInv_create {st : ProviderState} (fm : Option String) (now : Nat)
    (h : storeInv st) : storeInv (createNewSession st fm now).1 := by
  obtain ⟨h1, h2⟩ := h
  constructor
  · apply length_trimToLast_le
    simp only [List.length_append, List.length_singleton]
    omega
  · intro s hs
    rcases List.mem_append.mp (mem_trimToLast hs) with h3 | h3
    · exact h2 s h3
    · rw [List.mem_singleton.mp h3]
      simp

theorem storeInv_add {st : ProviderState} (role : PanelRole) (content : String)
    (now : Nat) (h : storeInv st) :
    storeInv (addMessageToSession st role content now) := by
  rw [addMessageToSession]
  have hmid : storeInv (if st.currentSessionId.isNone then
      (createNewSession st
        (if role = PanelRole.user then some content else none) now).1
    else st) := by
    split
    · exact storeInv_create _ _ h
    · exact h
  generalize hst : (if st.currentSessionId.isNone then
      (createNewSession st
        (if role = PanelRole.user then some content else none) now).1
    else st) = st1 at hmid ⊢
  obtain ⟨h1, h2⟩ := hmid
  match hcur : st1.currentSessionId with
  | none => exact ⟨h1, h2⟩
  | some sid =>
    constructor
    · simpa [length_updateFirst] using h1
    · intro s hs
      rcases mem_updateFirst hs with h3 | ⟨b, hb, he⟩
      · exact h2 s h3
      · rw [he]
        exact length_trimToLast_le 50 _ (by
          simp only [List.length_append, List.length_singleton]
          have := h2 b hb
          omega)

theorem storeInv_switch {st : ProviderState} (sid : String) (h : storeInv st) :
    storeInv (switchToSession st sid) := by
  rw [switchToSession]
  split
  · exact h
  · exact ⟨h.1, h.2⟩

theorem storeInv_apply {st : ProviderState} (op : ChatOp) (h : storeInv st) :
    storeInv (applyChatOp st op) := by
  cases op with
  | create fm now => exact storeInv_create fm now h
  | add role content now => exact storeInv_add role content now h
  | switch sid => exact storeInv_switch sid h

theorem storeInv_run (ops : List ChatOp) :
    ∀ st : ProviderState, storeInv st → storeInv (runChatOps st ops) := by
  induction ops with
  | nil => exact fun st h => h
  | cons op rest ih =>
    intro st h
    exact ih (applyChatOp st op) (storeInv_apply op h)

set_option maxRecDepth 4000 in
/-- Claim C4: over every operation sequence on the session store, no
session ever holds more than 50 messages, and eviction is oldest-first:
appending 60 numbered user messages to a fresh store leaves exactly
messages 11 through 60 in their original order. -/
theorem C4_message_cap_fifo :
    (∀ ops : List ChatOp, ∀ s ∈ (runChatOps initProviderState ops).chatSessions,
        s.messages.length ≤ 50)
    ∧ (runChatOps initProviderState
          ((List.range 60).map (fun i =>
            ChatOp.add PanelRole.user (toString (i + 1)) 0))).chatSessions
        = [{ id := "session_0", name := "1"
             messages := (List.range 50).map (fun i =>
               { role := PanelRole.user, content := toString (i + 11) })
             createdAt := 0 }] := by
  constructor
  · intro ops s hs
    exact (storeInv_run ops initProviderState storeInv_init).2 s hs
  · rfl

set_option maxRecDepth 4000 in
/-- Witness for C4: the singleton-append run produces a session of one
message, whose cap bound follows from the claim theorem. -/
theorem C4_message_cap_fifo_witness :
    ({ id := "session_0", name := "m"
       messages := [{ role := PanelRole.user, content := "m" }]
       createdAt := 0 } : ChatSession)
        ∈ (runChatOps initProviderState
            [ChatOp.add PanelRole.user "m" 0]).chatSessions
    ∧ ({ id := "session_0", name := "m"
         messages := [{ role := PanelRole.user, content := "m" }]
         createdAt := 0 } : ChatSession).messages.length ≤ 50 :=
  ⟨by decide,
   C4_message_cap_fifo.1 [ChatOp.add PanelRole.user "m" 0] _ (by decide)⟩

set_option maxRecDepth 4000 in
/-- Claim C5: over every operation sequence the store holds at most 10
sessions; every creation makes the new session current; creating an 11th
session evicts the earliest-created one, even when that session was the
most recently used (switched-to), showing eviction follows creation order
rather than recency of use. -/
theorem C5_session_cap_eviction :
    (∀ ops : List ChatOp,
        (runChatOps initProviderState ops).chatSessions.length ≤ 10)
    ∧ (∀ (st : ProviderState) (fm : Option String) (now : Nat),
        ((createNewSession st fm now).1).currentSessionId
          = some ("session_" ++ toString now))
    ∧ (runChatOps initProviderState
          (((List.range 10).map (fun i => ChatOp.create none i))
            ++ [ChatOp.switch "session_0", ChatOp.create none 10])).chatSessions.map
          (fun s => s.id)
        = (List.range 10).map (fun i => "session_" ++ toString (i + 1))
    ∧ (runChatOps initProviderState
          (((List.range 10).map (fun i => ChatOp.create none i))
            ++ [ChatOp.switch "session_0", ChatOp.create none 10])).currentSessionId
        = some "session_10" := by
  refine ⟨?_, ?_, ?_, ?_⟩
  · intro ops
    exact (storeInv_run ops initProviderState storeInv_init).1
  · intro st fm now
    rfl
  · rfl
  · rfl

/-! ## History windowing -/

theorem find?_congr {l : List α} {p q : α → Bool} (h : ∀ a, p a = q a) :
    l.find? p = l.find? q := by
  have hpq : p = q := funext h
  rw [hpq]

theorem find?_updateFirst {p : α → Bool} {f : α → α} {l : List α} {s : α}
    (hfind : l.find? p = some s) (hf : p (f s) = true) :
    (updateFirst p f l).find? p = some (f s) := by
  induction l with
  | nil => exact absurd hfind (by simp)
  | cons x xs ih =>
    rw [updateFirst]
    by_cases hx : p x = true
    · rw [List.find?_cons_of_pos _ hx] at hfind
      injection hfind with h1
      subst h1
      rw [if_pos hx, List.find?_cons_of_pos _ hf]
    · rw [List.find?_cons_of_neg _ hx] at hfind
      rw [if_neg hx, List.find?_cons_of_neg _ hx]
      exact ih hfind

/-- Claim C6: the history handleChatMessage sends to the backend is the
last six messages of the current session after the user turn was appended,
with the final entry dropped; with 10 prior messages this is exactly the
five messages 6 through 10 of the prior list, in original order. -/
theorem C6_history_window (st : ProviderState) (s : ChatSession)
    (userMessage : String) (now : Nat)
    (hcur : st.currentSessionId = some s.id)
    (hfind : st.chatSessions.find? (fun x => x.id == s.id) = some s) :
    assembleChatMessages st userMessage now
      = [{ role := Role.system, content := panelSystemPrompt }]
        ++ ((jsSliceLast 6 (trimToLast 50 (s.messages
              ++ [{ role := PanelRole.user, content := userMessage }]))).map
            toChatMessage).dropLast
        ++ [{ role := Role.user, content := userMessage }]
    ∧ (s.messages.length = 10 →
        assembleChatMessages st userMessage now
          = [{ role := Role.system, content := panelSystemPrompt }]
            ++ (s.messages.drop 5).map toChatMessage
            ++ [{ role := Role.user, content := userMessage }]) := by
  have hmain : assembleChatMessages st userMessage now
      = [{ role := Role.system, content := panelSystemPrompt }]
        ++ ((jsSliceLast 6 (trimToLast 50 (s.messages
              ++ [{ role := PanelRole.user, content := userMessage }]))).map
            toChatMessage).dropLast
        ++ [{ role := Role.user, content := userMessage }] := by
    have hnone : st.currentSessionId.isNone = false := by
      rw [hcur]
      rfl
    have hstep : addMessageToSession st PanelRole.user userMessage now
        = { st with
            chatSessions :=
              updateFirst (fun x => x.id == s.id)
                (fun x =>
                  { x with
                    messages := trimToLast 50 (x.messages
                      ++ [{ role := PanelRole.user, content := userMessage }]) })
                st.chatSessions } := by
      rw [addMessageToSession]
      simp only [hcur, Option.isNone_some, Bool.false_eq_true, if_false]
    have hhist : conversationHistoryOf
        (addMessageToSession st PanelRole.user userMessage now)
        = (jsSliceLast 6 (trimToLast 50 (s.messages
            ++ [{ role := PanelRole.user, content := userMessage }]))).map
          toChatMessage := by
      rw [conversationHistoryOf, hstep]
      have hpq : ∀ x : ChatSession,
          (some x.id == ({ st with
            chatSessions :=
              updateFirst (fun x => x.id == s.id)
                (fun x =>
                  { x with
                    messages := trimToLast 50 (x.messages
                      ++ [{ role := PanelRole.user, content := userMessage }]) })
                st.chatSessions } : ProviderState).currentSessionId)
            = (x.id == s.id) := by
        intro x
        simp only [hcur]
        rfl
      rw [find?_congr hpq,
        find?_updateFirst hfind (by simp)]
    rw [assembleChatMessages, hhist]
  refine ⟨hmain, fun h10 => ?_⟩
  rw [hmain]
  have hlen : (s.messages
      ++ [({ role := PanelRole.user, content := userMessage } : PanelMessage)]).length
      = 11 := by
    simp [h10]
  have htrim : trimToLast 50 (s.messages
      ++ [({ role := PanelRole.user, content := userMessage } : PanelMessage)])
      = s.messages
        ++ [({ role := PanelRole.user, content := userMessage } : PanelMessage)] := by
    rw [trimToLast, if_neg (by omega)]
  have hslice : jsSliceLast 6 (s.messages
      ++ [({ role := PanelRole.user, content := userMessage } : PanelMessage)])
      = s.messages.drop 5
        ++ [({ role := PanelRole.user, content := userMessage } : PanelMessage)] := by
    rw [jsSliceLast, hlen]
    exact List.drop_append_of_le_length (by omega)
  rw [htrim, hslice, List.map_append, List.map_singleton, List.dropLast_concat]

/-- Witness for C6: a concrete session holding ten numbered user messages
yields exactly the five messages 6 through 10 as history. -/
theorem C6_history_window_witness :
    assembleChatMessages
      { chatSessions :=
          [{ id := "sid", name := "n"
             messages := (List.range 10).map (fun i =>
               { role := PanelRole.user, content := toString (i + 1) })
             createdAt := 0 }]
        currentSessionId := some "sid" } "q" 99
      = [{ role := Role.system, content := panelSystemPrompt }]
        ++ (((List.range 10).map (fun i =>
              ({ role := PanelRole.user, content := toString (i + 1) }
                : PanelMessage))).drop 5).map toChatMessage
        ++ [{ role := Role.user, content := "q" }] :=
  (C6_history_window
    { chatSessions :=
        [{ id := "sid", name := "n"
           messages := (List.range 10).map (fun i =>
             { role := PanelRole.user, content := toString (i + 1) })
           createdAt := 0 }]
      currentSessionId := some "sid" }
    { id := "sid", name := "n"
      messages := (List.range 10).map (fun i =>
        { role := PanelRole.user, content := toString (i + 1) })
      createdAt := 0 } "q" 99 rfl (by decide)).2 (by decide)

/-! ## Completion gatekeeper -/

/-- Each invocation of the gate either changes nothing and yields no
suggestion, or issues the request, which requires no pending request and
the minimum interval elapsed, and records the submission time with the
pending flag set. -/
theorem provideStep_spec (st : CompletionGateState) (e c cl : Bool)
    (now : Nat) (txt : String) (tr : String → Bool) :
    provideStep st e c cl now txt tr = (GateResult.noSuggestion, st)
    ∨ (provideStep st e c cl now txt tr
          = (GateResult.issued, { lastRequestTime := now, pending := true })
        ∧ st.pending = false
        ∧ minRequestInterval ≤ now - st.lastRequestTime) := by
  rw [provideStep]
  split
  · exact Or.inl rfl
  split
  · exact Or.inl rfl
  split
  · exact Or.inl rfl
  split
  · exact Or.inl rfl
  split
  · exact Or.inl rfl
  split
  · exact Or.inl rfl
  split
  · exact Or.inl rfl
  rename_i h1 h2 h3 h4 h5 h6 h7
  refine Or.inr ⟨rfl, ?_, ?_⟩
  · simp_all
  · omega

/-- Claim C3: the inline completion gate is single-flight and rate
limited.  A request is issued only from a non-pending state at least
minRequestInterval after the previous submission; with a request pending
every attempt is rejected unchanged, whatever the elapsed time; an attempt
500 milliseconds after a submission is rejected whatever the other gates
say; an attempt 2100 milliseconds after the last submission, not pending
and with the remaining gates passing, is issued; and along every event
trace the successive issued submission times are at least
minRequestInterval apart. -/
theorem C3_rate_limit_single_flight :
    (∀ (st : CompletionGateState) (e c cl : Bool) (now : Nat) (txt : String)
        (tr : String → Bool),
      (provideStep st e c cl now txt tr).1 = GateResult.issued →
        st.pending = false ∧ minRequestInterval ≤ now - st.lastRequestTime
          ∧ (provideStep st e c cl now txt tr).2
              = { lastRequestTime := now, pending := true })
    ∧ (∀ (st : CompletionGateState) (e c cl : Bool) (now : Nat) (txt : String)
        (tr : String → Bool),
      st.pending = true →
        provideStep st e c cl now txt tr = (GateResult.noSuggestion, st))
    ∧ (∀ (t : Nat) (b e c cl : Bool) (txt : String) (tr : String → Bool),
        provideStep { lastRequestTime := t, pending := b } e c cl (t + 500) txt tr
          = (GateResult.noSuggestion, { lastRequestTime := t, pending := b }))
    ∧ (∀ (t : Nat) (txt : String) (tr : String → Bool),
        (jsTrim txt).length ≠ 0 → tr txt = true →
          provideStep { lastRequestTime := t, pending := false } true true false
              (t + 2100) txt tr
            = (GateResult.issued, { lastRequestTime := t + 2100, pending := true }))
    ∧ (∀ (tr : String → Bool) (evs : List CompletionEvent),
        List.Chain (fun a b => a + minRequestInterval ≤ b) 0
          (issuedTimes tr evs)) := by
  have hchain : ∀ (tr : String → Bool) (evs : List CompletionEvent)
      (st : CompletionGateState),
      List.Chain (fun a b => a + minRequestInterval ≤ b) st.lastRequestTime
        (runCompletion tr st evs).2 := by
    intro tr evs
    induction evs with
    | nil => exact fun st => List.Chain.nil
    | cons ev rest ih =>
      intro st
      cases ev with
      | attempt e c cl now txt =>
        rw [runCompletion]
        rcases provideStep_spec st e c cl now txt tr with h | ⟨h, _, hle⟩
        · rw [h]
          dsimp only
          exact ih st
        · rw [h]
          dsimp only
          rw [if_pos rfl]
          have hle2 : (2000 : Nat) ≤ now - st.lastRequestTime := hle
          exact List.Chain.cons
            (show st.lastRequestTime + 2000 ≤ now by omega)
            (ih { lastRequestTime := now, pending := true })
      | resolve =>
        rw [runCompletion]
        exact ih (resolveStep st)
  refine ⟨?_, ?_, ?_, ?_, ?_⟩
  · intro st e c cl now txt tr hiss
    rcases provideStep_spec st e c cl now txt tr with h | ⟨h, hp, hle⟩
    · rw [h] at hiss
      exact absurd hiss (by simp)
    · rw [h]
      exact ⟨hp, hle, rfl⟩
  · intro st e c cl now txt tr hpend
    rcases provideStep_spec st e c cl now txt tr with h | ⟨_, hp, _⟩
    · exact h
    · rw [hpend] at hp
      exact absurd hp (by simp)
  · intro t b e c cl txt tr
    rcases provideStep_spec { lastRequestTime := t, pending := b } e c cl
        (t + 500) txt tr with h | ⟨_, _, hle⟩
    · exact h
    · have hle2 : (2000 : Nat) ≤ t + 500 - t := hle
      exact absurd hle2 (by omega)
  · intro t txt tr htxt htr
    rw [provideStep]
    dsimp only
    rw [if_neg (by simp), if_neg (by simp), if_neg (by simp)]
    rw [if_neg (show ¬(t + 2100 - t < minRequestInterval) by
      show ¬(t + 2100 - t < 2000)
      omega)]
    rw [if_neg (by simp), if_neg htxt, if_neg (by simp [htr])]
  · intro tr evs
    exact hchain tr evs initCompletionGateState

/-- Witness for C3: at concrete states and times, a pending attempt is
rejected, an attempt 500 milliseconds after a submission is rejected, and
an attempt 2100 milliseconds after the last submission with the gates
passing is issued. -/
theorem C3_rate_limit_single_flight_witness :
    provideStep { lastRequestTime := 7, pending := true } true true false 999999
        "ab" (fun _ => true)
      = (GateResult.noSuggestion, { lastRequestTime := 7, pending := true })
    ∧ provideStep { lastRequestTime := 3000, pending := false } true true false
        3500 "ab" (fun _ => true)
      = (GateResult.noSuggestion, { lastRequestTime := 3000, pending := false })
    ∧ provideStep { lastRequestTime := 3000, pending := false } true true false
        5100 "ab" (fun _ => true)
      = (GateResult.issued, { lastRequestTime := 5100, pending := true }) :=
  ⟨C3_rate_limit_single_flight.2.1 { lastRequestTime := 7, pending := true }
      true true false 999999 "ab" (fun _ => true) rfl,
   C3_rate_limit_single_flight.2.2.1 3000 false true true false "ab"
     (fun _ => true),
   C3_rate_limit_single_flight.2.2.2.1 3000 "ab" (fun _ => true) (by decide)
     rfl⟩

end LazAI
